import Mathlib

/-!
Shallow embedding of the balance-resolution engine of the
financial-transactions-api repository.

Conventions of the embedding:
* Python `Decimal` amounts are modelled as `ℚ` (exact arbitrary-precision
  arithmetic, as `decimal.Decimal` addition/subtraction is exact).
* Python `datetime.date` values are modelled as `ℤ` (ordinal day numbers);
  `timedelta(days=1)` becomes `+ 1`, and `date.today()` is passed around
  explicitly as a `today : ℤ` parameter.
* Python exceptions become `Except` results; the exception classes of
  `app/core/exceptions.py` become the `FinancialException` inductive.
* The SQLAlchemy session is modelled as an explicit `Database` value holding
  the three tables; each repository method from
  `app/infrastructure/repositories/` is a function over it.  SQL `ORDER BY
  transaction_date DESC` is modelled with `List.insertionSort` on the
  descending relation.
* The Redis-backed cache is modelled as `CacheState`: an entry list plus a
  `failing` flag standing for an unavailable backend (every underlying cache
  call raises exactly when `failing` is set, which is what the
  `try/except` blocks in `CacheService` guard against).
* Wall-clock metadata (`created_at` / `updated_at` timestamps) is not carried:
  no modelled behaviour reads it.
-/

/-- Exception taxonomy of `app/core/exceptions.py`.  Every exception carries
its message string. -/
inductive FinancialException where
  | accountNotFound (message : String)
  | invalidTransaction (message : String)
  | insufficientFunds (message : String)
deriving DecidableEq, Repr

/-- Decidable equality for `Except` results, so that concrete runs of the
embedded code can be checked by evaluation. -/
instance exceptDecEq {ε α : Type} [DecidableEq ε] [DecidableEq α] :
    DecidableEq (Except ε α) :=
  fun a b =>
    match a, b with
    | .ok x, .ok y =>
        if h : x = y then isTrue (by rw [h]) else isFalse (by simp [h])
    | .error x, .error y =>
        if h : x = y then isTrue (by rw [h]) else isFalse (by simp [h])
    | .ok _, .error _ => isFalse (by simp)
    | .error _, .ok _ => isFalse (by simp)

/-- Value object of `app/domain/value_objects/money.py`: a decimal amount plus
a currency code.  The raw structure does not enforce non-negativity; the
constructor-with-validation `Money.mk?` below does, exactly as
`Money.__post_init__` does in the source. -/
structure Money where
  amount : ℚ
  currency : String
deriving DecidableEq, Repr

/-- Validating constructor: `Money.__post_init__` raises
`InvalidTransactionException("Money amount cannot be negative")` whenever the
amount is negative.  Every `Money(...)` call site in the source goes through
this check. -/
def Money.mk? (amount : ℚ) (currency : String) : Except FinancialException Money :=
  if amount < 0 then
    .error (.invalidTransaction "Money amount cannot be negative")
  else
    .ok ⟨amount, currency⟩

/-- Money._validate_currency: raises `InvalidTransactionException` with a
currency-mismatch message when the two currencies differ.  This is the
error the spec's taxonomy calls `CurrencyMismatch`. -/
def Money.validate_currency (a b : Money) : Except FinancialException Unit :=
  if a.currency ≠ b.currency then
    .error (.invalidTransaction ("Currency mismatch: " ++ a.currency ++ " vs " ++ b.currency))
  else
    .ok ()

/-- Money.add: validate currencies, then build `Money(self.amount +
other.amount, self.currency)` through the validating constructor. -/
def Money.add (a b : Money) : Except FinancialException Money :=
  match a.validate_currency b with
  | .error e => .error e
  | .ok _ => Money.mk? (a.amount + b.amount) a.currency

/-- Money.subtract: validate currencies, then build `Money(self.amount -
other.amount, self.currency)` through the validating constructor. -/
def Money.subtract (a b : Money) : Except FinancialException Money :=
  match a.validate_currency b with
  | .error e => .error e
  | .ok _ => Money.mk? (a.amount - b.amount) a.currency

/-- Money.zero: `Money(Decimal("0.00"), "BRL")`. -/
def Money.zero : Money := ⟨0, "BRL"⟩

/-- TransactionType of `app/core/enums.py`. -/
inductive TransactionType where
  | credit
  | debit
deriving DecidableEq, Repr

/-- AccountStatus of `app/core/enums.py`. -/
inductive AccountStatus where
  | active
  | inactive
  | blocked
deriving DecidableEq, Repr

/-- Transaction entity of `app/domain/entities/transaction.py`.  `id = 0`
means "not yet persisted".  The `created_at` wall-clock timestamp is not
modelled. -/
structure Transaction where
  id : ℤ
  account_id : ℤ
  amount : Money
  transaction_type : TransactionType
  description : String
  transaction_date : ℤ
  reference_id : Option String
deriving DecidableEq, Repr

/-- Transaction.is_credit. -/
def Transaction.is_credit (t : Transaction) : Bool :=
  decide (t.transaction_type = TransactionType.credit)

/-- Transaction.is_debit. -/
def Transaction.is_debit (t : Transaction) : Bool :=
  decide (t.transaction_type = TransactionType.debit)

/-- Transaction.validate: amount strictly positive, description non-empty and
at most 500 characters.  (The factory strips the description before this
check runs, so `self.description` is already trimmed here.) -/
def Transaction.validate (t : Transaction) : Except FinancialException Unit :=
  if t.amount.amount ≤ 0 then
    .error (.invalidTransaction "Transaction amount must be positive")
  else if t.description.trim.length = 0 then
    .error (.invalidTransaction "Transaction description is required")
  else if 500 < t.description.length then
    .error (.invalidTransaction "Transaction description too long")
  else
    .ok ()

/-- Transaction._create_transaction, the shared body of the `create_credit`
and `create_debit` factories: strips the description, defaults the date to
today, and validates (via `__post_init__`). -/
def Transaction.create_transaction (account_id : ℤ) (amount : Money)
    (transaction_type : TransactionType) (description : String)
    (transaction_date : Option ℤ) (reference_id : Option String) (today : ℤ) :
    Except FinancialException Transaction :=
  let t : Transaction :=
    { id := 0
      account_id := account_id
      amount := amount
      transaction_type := transaction_type
      description := description.trim
      transaction_date := transaction_date.getD today
      reference_id := reference_id }
  match t.validate with
  | .error e => .error e
  | .ok _ => .ok t

/-- Account entity of `app/domain/entities/account.py` (wall-clock
`created_at` / `updated_at` not modelled). -/
structure Account where
  id : ℤ
  account_number : String
  account_name : String
  status : AccountStatus
deriving DecidableEq, Repr

/-- Account.is_active. -/
def Account.is_active (a : Account) : Bool :=
  decide (a.status = AccountStatus.active)

/-- Account.validate_for_transaction: raises `AccountNotFoundException` with
the message `"Account NUMBER is not active"` when the status is not ACTIVE. -/
def Account.validate_for_transaction (a : Account) : Except FinancialException Unit :=
  if a.is_active then
    .ok ()
  else
    .error (.accountNotFound ("Account " ++ a.account_number ++ " is not active"))

/-- BalanceSnapshot entity of `app/domain/entities/balance_snapshot.py`
(`created_at` not modelled). -/
structure BalanceSnapshot where
  id : ℤ
  account_id : ℤ
  snapshot_date : ℤ
  balance_amount : ℚ
  transaction_count : ℕ
  snapshot_type : String
deriving DecidableEq, Repr

/-- BalanceSnapshot.create: factory with `id = 0` before persistence. -/
def BalanceSnapshot.create (account_id snapshot_date : ℤ) (balance_amount : ℚ)
    (transaction_count : ℕ) (snapshot_type : String) : BalanceSnapshot :=
  { id := 0
    account_id := account_id
    snapshot_date := snapshot_date
    balance_amount := balance_amount
    transaction_count := transaction_count
    snapshot_type := snapshot_type }

/-- Database state: the three tables the SQLAlchemy session serves. -/
structure Database where
  accounts : List Account
  transactions : List Transaction
  snapshots : List BalanceSnapshot
deriving DecidableEq, Repr

/-- AccountRepository.get_by_id: first row whose id matches, if any. -/
def AccountRepository.get_by_id (db : Database) (account_id : ℤ) : Option Account :=
  (db.accounts.filter (fun a => decide (a.id = account_id))).head?

/-- Signed amount of a transaction, as in the SQL `CASE WHEN transaction_type
= CREDIT THEN amount ELSE -amount END` of
`TransactionRepository.get_balance_by_date`. -/
def Transaction.signed_amount (t : Transaction) : ℚ :=
  match t.transaction_type with
  | .credit => t.amount.amount
  | .debit => -t.amount.amount

/-- Row filter of `TransactionRepository.list_by_account` /
`count_by_account`: account match plus the two optional date bounds
(`transaction_date >= start_date`, `transaction_date <= end_date`). -/
def TransactionRepository.matches_filters (account_id : ℤ)
    (start_date end_date : Option ℤ) (t : Transaction) : Bool :=
  decide (t.account_id = account_id) &&
    (match start_date with
     | none => true
     | some s => decide (s ≤ t.transaction_date)) &&
    (match end_date with
     | none => true
     | some e => decide (t.transaction_date ≤ e))

/-- TransactionRepository.list_by_account: filter, `ORDER BY transaction_date
DESC`, then `OFFSET (page-1)*limit LIMIT limit`. -/
def TransactionRepository.list_by_account (db : Database) (account_id : ℤ)
    (page limit : ℕ) (start_date end_date : Option ℤ) : List Transaction :=
  let offset := (page - 1) * limit
  let rows :=
    db.transactions.filter (TransactionRepository.matches_filters account_id start_date end_date)
  ((rows.insertionSort (fun a b => b.transaction_date ≤ a.transaction_date)).drop offset).take limit

/-- TransactionRepository.get_balance_by_date: SQL sum of signed amounts over
the account's transactions with `transaction_date <= target_date`; the
`result or Decimal("0.00")` fallback is the empty sum being `0`. -/
def TransactionRepository.get_balance_by_date (db : Database) (account_id target_date : ℤ) : ℚ :=
  ((db.transactions.filter
      (fun t => decide (t.account_id = account_id) && decide (t.transaction_date ≤ target_date))).map
    Transaction.signed_amount).sum

/-- TransactionRepository.count_by_account. -/
def TransactionRepository.count_by_account (db : Database) (account_id : ℤ)
    (start_date end_date : Option ℤ) : ℕ :=
  (db.transactions.filter (TransactionRepository.matches_filters account_id start_date end_date)).length

/-- TransactionRepository.create_no_commit: append the row and assign the next
autoincrement id via `db.flush()`. -/
def TransactionRepository.create_no_commit (db : Database) (t : Transaction) :
    Transaction × Database :=
  let assigned := { t with id := (db.transactions.length : ℤ) + 1 }
  (assigned, { db with transactions := db.transactions ++ [assigned] })

/-- BalanceSnapshotRepository.get_latest_before_date: rows for the account
with `snapshot_date <= target_date`, `ORDER BY snapshot_date DESC`, `.first()`. -/
def BalanceSnapshotRepository.get_latest_before_date (db : Database)
    (account_id target_date : ℤ) : Option BalanceSnapshot :=
  ((db.snapshots.filter
      (fun s => decide (s.account_id = account_id) && decide (s.snapshot_date ≤ target_date))).insertionSort
    (fun a b => b.snapshot_date ≤ a.snapshot_date)).head?

/-- BalanceSnapshotRepository.exists (named `exists_for_date` here because
`exists` is a reserved word): is there a snapshot row at exactly this date? -/
def BalanceSnapshotRepository.exists_for_date (db : Database)
    (account_id snapshot_date : ℤ) : Bool :=
  db.snapshots.any
    (fun s => decide (s.account_id = account_id) && decide (s.snapshot_date = snapshot_date))

/-- BalanceSnapshotRepository.create_no_commit. -/
def BalanceSnapshotRepository.create_no_commit (db : Database) (s : BalanceSnapshot) :
    BalanceSnapshot × Database :=
  let assigned := { s with id := (db.snapshots.length : ℤ) + 1 }
  (assigned, { db with snapshots := db.snapshots ++ [assigned] })

/-- Cache entry: what `ICacheService.set_balance` stores for a
`(account_id, target_date)` key, together with the TTL it was given. -/
structure CacheEntry where
  account_id : ℤ
  target_date : ℤ
  balance : Money
  ttl : ℕ
deriving DecidableEq, Repr

/-- State of the underlying key-value cache: the stored entries plus a
`failing` flag modelling an unavailable backend.  Every `ICacheService` call
raises exactly when `failing` is set; the `try/except` wrappers in
`CacheService` are what swallow those raises. -/
structure CacheState where
  entries : List CacheEntry
  failing : Bool
deriving DecidableEq, Repr

/-- ICacheService.get_balance on the modelled backend: raises when the backend
is failing, otherwise returns the most recent entry for the key, if any. -/
def ICacheService.get_balance (c : CacheState) (account_id target_date : ℤ) :
    Except Unit (Option Money) :=
  if c.failing then
    .error ()
  else
    .ok (((c.entries.filter
        (fun e => decide (e.account_id = account_id) && decide (e.target_date = target_date))).head?).map
      CacheEntry.balance)

/-- ICacheService.set_balance on the modelled backend. -/
def ICacheService.set_balance (c : CacheState) (account_id target_date : ℤ)
    (balance : Money) (ttl : ℕ) : Except Unit CacheState :=
  if c.failing then
    .error ()
  else
    .ok { c with entries := ⟨account_id, target_date, balance, ttl⟩ :: c.entries }

/-- ICacheService.invalidate_account_cache on the modelled backend: drops all
entries of the account. -/
def ICacheService.invalidate_account_cache (c : CacheState) (account_id : ℤ) :
    Except Unit CacheState :=
  if c.failing then
    .error ()
  else
    .ok { c with entries := c.entries.filter (fun e => decide (e.account_id ≠ account_id)) }

/-- CacheService.get_cached_balance: any backend failure is downgraded to a
cache miss (`return None`). -/
def CacheService.get_cached_balance (c : CacheState) (account_id target_date : ℤ) :
    Option Money :=
  match ICacheService.get_balance c account_id target_date with
  | .ok r => r
  | .error _ => none

/-- CacheService.cache_balance: TTL is 86400 seconds for a historical date
(`target_date < today`) and 3600 seconds otherwise; backend failures are
swallowed, leaving the cache as it was. -/
def CacheService.cache_balance (c : CacheState) (account_id target_date : ℤ)
    (balance : Money) (today : ℤ) : CacheState :=
  let ttl : ℕ := if target_date < today then 86400 else 3600
  match ICacheService.set_balance c account_id target_date balance ttl with
  | .ok c2 => c2
  | .error _ => c

/-- CacheService.invalidate_account: backend failures are swallowed. -/
def CacheService.invalidate_account (c : CacheState) (account_id : ℤ) : CacheState :=
  match ICacheService.invalidate_account_cache c account_id with
  | .ok c2 => c2
  | .error _ => c

/-- SnapshotService.should_create_snapshot of
`app/application/services/snapshot_service.py`: false for a future date,
false when a snapshot already exists at that exact date, otherwise true iff
the account's transaction count up to the date exceeds 100. -/
def SnapshotService.should_create_snapshot (db : Database) (account_id target_date today : ℤ) :
    Bool :=
  if today < target_date then
    false
  else if BalanceSnapshotRepository.exists_for_date db account_id target_date then
    false
  else
    decide (100 < TransactionRepository.count_by_account db account_id none (some target_date))

/-- SnapshotService.create_daily_snapshot: raises `ValueError` when a snapshot
already exists for the date, otherwise materializes the ledger's
balance-by-date sum and transaction count as a new `daily` snapshot row. -/
def SnapshotService.create_daily_snapshot (db : Database) (account_id target_date : ℤ) :
    Except String (BalanceSnapshot × Database) :=
  if BalanceSnapshotRepository.exists_for_date db account_id target_date then
    .error "Snapshot already exists for account on this date"
  else
    let balance_amount := TransactionRepository.get_balance_by_date db account_id target_date
    let transaction_count := TransactionRepository.count_by_account db account_id none (some target_date)
    let snapshot := BalanceSnapshot.create account_id target_date balance_amount transaction_count "daily"
    .ok (BalanceSnapshotRepository.create_no_commit db snapshot)

/-- Loop body shared by `BalanceCalculatorService.calculate_balance_at_date`
and `GetBalanceUseCase._calculate_from_snapshot`: add the amount of a CREDIT,
subtract the amount of a DEBIT. -/
def BalanceCalculatorService.fold_transaction (balance : Money) (t : Transaction) :
    Except FinancialException Money :=
  if t.is_credit then balance.add t.amount else balance.subtract t.amount

/-- Sequential fold of the loop body over a transaction list; a raise from any
iteration aborts the whole loop, as in Python. -/
def BalanceCalculatorService.fold_transactions (balance : Money) :
    List Transaction → Except FinancialException Money
  | [] => .ok balance
  | t :: rest =>
    match BalanceCalculatorService.fold_transaction balance t with
    | .error e => .error e
    | .ok b => BalanceCalculatorService.fold_transactions b rest

/-- BalanceCalculatorService.calculate_balance_at_date of
`app/domain/services/balance_calculator.py`: start from `Money.zero()` and
fold the transactions dated at or before the target date. -/
def BalanceCalculatorService.calculate_balance_at_date (transactions : List Transaction)
    (target_date : ℤ) : Except FinancialException Money :=
  BalanceCalculatorService.fold_transactions Money.zero
    (transactions.filter (fun t => decide (t.transaction_date ≤ target_date)))

/-- Collaborator invocations observable during a use-case run (one constructor
per repository/cache call site in the use cases). -/
inductive Event where
  | account_get (account_id : ℤ)
  | cache_get (account_id target_date : ℤ)
  | cache_set (account_id target_date : ℤ)
  | cache_invalidate (account_id : ℤ)
  | snapshot_latest_query (account_id target_date : ℤ)
  | snapshot_exists_query (account_id target_date : ℤ)
  | snapshot_create (account_id target_date : ℤ)
  | ledger_sum (account_id target_date : ℤ)
  | ledger_list (account_id : ℤ)
  | ledger_count (account_id target_date : ℤ)
  | ledger_append (account_id : ℤ)
deriving DecidableEq, Repr

/-- Response dictionary built by `GetBalanceUseCase._build_response`. -/
structure BalanceResponse where
  account_id : ℤ
  account_number : String
  account_name : String
  balance : Money
  target_date : ℤ
  source : String
deriving DecidableEq, Repr

/-- GetBalanceUseCase._build_response. -/
def GetBalanceUseCase.build_response (account : Account) (balance : Money)
    (target_date : ℤ) (source : String) : BalanceResponse :=
  { account_id := account.id
    account_number := account.account_number
    account_name := account.account_name
    balance := balance
    target_date := target_date
    source := source }

/-- GetBalanceUseCase._calculate_from_snapshot: wrap the snapshot's stored
amount in `Money`, and when the snapshot is strictly older than the target
date, fold the transactions of the window `(snapshot_date, target_date]`
fetched via `list_by_account(page=1, limit=10000)`. -/
def GetBalanceUseCase.calculate_from_snapshot (db : Database) (snapshot : BalanceSnapshot)
    (account_id target_date : ℤ) : Except FinancialException Money :=
  match Money.mk? snapshot.balance_amount "BRL" with
  | .error e => .error e
  | .ok balance =>
    if snapshot.snapshot_date < target_date then
      BalanceCalculatorService.fold_transactions balance
        (TransactionRepository.list_by_account db account_id 1 10000
          (some (snapshot.snapshot_date + 1)) (some target_date))
    else
      .ok balance

/-- Outcome of the snapshot side effect in step 4 of
`GetBalanceUseCase.execute` (the `try/except` block): possibly-extended
database, resulting source string, and the collaborator calls made. -/
structure SnapshotAttempt where
  db : Database
  source : String
  events : List Event
deriving DecidableEq, Repr

/-- Snapshot side effect of `GetBalanceUseCase.execute`: when the policy says
yes, attempt `create_daily_snapshot` and upgrade the source string; any raise
inside the block is swallowed, keeping source `calculated`.  (In the
single-threaded model the policy's "no snapshot yet" check still holds when
`create_daily_snapshot` re-checks it, so the create always succeeds here.) -/
def GetBalanceUseCase.snapshot_attempt (db : Database) (account_id target_date today : ℤ) :
    SnapshotAttempt :=
  let policy_events :=
    if today < target_date then
      ([] : List Event)
    else if BalanceSnapshotRepository.exists_for_date db account_id target_date then
      [.snapshot_exists_query account_id target_date]
    else
      [.snapshot_exists_query account_id target_date, .ledger_count account_id target_date]
  if SnapshotService.should_create_snapshot db account_id target_date today then
    match SnapshotService.create_daily_snapshot db account_id target_date with
    | .ok (_, db2) =>
        ⟨db2, "calculated+snapshot_created",
          policy_events ++
            [.snapshot_exists_query account_id target_date,
              .ledger_sum account_id target_date,
              .ledger_count account_id target_date,
              .snapshot_create account_id target_date]⟩
    | .error _ =>
        ⟨db, "calculated", policy_events ++ [.snapshot_exists_query account_id target_date]⟩
  else
    ⟨db, "calculated", policy_events⟩

/-- Full result of one `GetBalanceUseCase.execute` call: outcome, final cache
and database states, and the collaborator calls made, in order. -/
structure GetBalanceResult where
  outcome : Except FinancialException BalanceResponse
  cache : CacheState
  db : Database
  events : List Event
deriving DecidableEq, Repr

/-- GetBalanceUseCase.execute of
`app/application/use_cases/get_balance.py`: account check, cache probe,
snapshot probe with delta replay, full-replay fallback with opportunistic
snapshot creation, cache populate. -/
def GetBalanceUseCase.execute (cache : CacheState) (db : Database) (account_id : ℤ)
    (target_date_opt : Option ℤ) (today : ℤ) : GetBalanceResult :=
  let target_date := target_date_opt.getD today
  match AccountRepository.get_by_id db account_id with
  | none =>
      ⟨.error (.accountNotFound "Account not found"), cache, db, [.account_get account_id]⟩
  | some account =>
    match CacheService.get_cached_balance cache account_id target_date with
    | some cached =>
        ⟨.ok (GetBalanceUseCase.build_response account cached target_date "cache"), cache, db,
          [.account_get account_id, .cache_get account_id target_date]⟩
    | none =>
      match BalanceSnapshotRepository.get_latest_before_date db account_id target_date with
      | some snapshot =>
          let events0 :=
            [Event.account_get account_id, .cache_get account_id target_date,
              .snapshot_latest_query account_id target_date] ++
            (if snapshot.snapshot_date < target_date then [Event.ledger_list account_id] else [])
          match GetBalanceUseCase.calculate_from_snapshot db snapshot account_id target_date with
          | .error e => ⟨.error e, cache, db, events0⟩
          | .ok calculated =>
              let cache2 := CacheService.cache_balance cache account_id target_date calculated today
              ⟨.ok (GetBalanceUseCase.build_response account calculated target_date "snapshot"),
                cache2, db, events0 ++ [.cache_set account_id target_date]⟩
      | none =>
          let events0 :=
            [Event.account_get account_id, .cache_get account_id target_date,
              .snapshot_latest_query account_id target_date, .ledger_sum account_id target_date]
          let balance_amount := TransactionRepository.get_balance_by_date db account_id target_date
          match Money.mk? balance_amount "BRL" with
          | .error e => ⟨.error e, cache, db, events0⟩
          | .ok calculated =>
              let attempt := GetBalanceUseCase.snapshot_attempt db account_id target_date today
              let cache2 := CacheService.cache_balance cache account_id target_date calculated today
              ⟨.ok (GetBalanceUseCase.build_response account calculated target_date attempt.source),
                cache2, attempt.db,
                events0 ++ attempt.events ++ [.cache_set account_id target_date]⟩

/-- Input dictionary of `CreateTransactionUseCase.execute`
(`transaction_data`). -/
structure TransactionData where
  account_id : ℤ
  amount : Money
  transaction_type : String
  description : String
  transaction_date : Option ℤ
  reference_id : Option String
deriving DecidableEq, Repr

/-- Full result of one `CreateTransactionUseCase.execute` call. -/
structure CreateTransactionResult where
  outcome : Except FinancialException Transaction
  cache : CacheState
  db : Database
  events : List Event
deriving DecidableEq, Repr

/-- CreateTransactionUseCase.execute of
`app/application/use_cases/create_transaction.py`: load account, require it
ACTIVE, build the transaction via the credit/debit factory, persist, then
invalidate the account's cache. -/
def CreateTransactionUseCase.execute (cache : CacheState) (db : Database)
    (data : TransactionData) (today : ℤ) : CreateTransactionResult :=
  match AccountRepository.get_by_id db data.account_id with
  | none =>
      ⟨.error (.accountNotFound "Account not found"), cache, db, [.account_get data.account_id]⟩
  | some account =>
    match account.validate_for_transaction with
    | .error e => ⟨.error e, cache, db, [.account_get data.account_id]⟩
    | .ok _ =>
      let ttype :=
        if data.transaction_type = "credit" then TransactionType.credit else TransactionType.debit
      match Transaction.create_transaction data.account_id data.amount ttype data.description
          data.transaction_date data.reference_id today with
      | .error e => ⟨.error e, cache, db, [.account_get data.account_id]⟩
      | .ok t =>
          let (created, db2) := TransactionRepository.create_no_commit db t
          let cache2 := CacheService.invalidate_account cache data.account_id
          ⟨.ok created, cache2, db2,
            [.account_get data.account_id, .ledger_append data.account_id,
              .cache_invalidate data.account_id]⟩

/-! Concrete fixtures used by witnesses and counterexamples. -/

/-- An ACTIVE account with id 1. -/
def acct_active : Account := ⟨1, "ACC-001", "Alice", .active⟩

/-- An empty, healthy cache. -/
def cache_empty : CacheState := ⟨[], false⟩

/-- Same-day CREDIT of 5 BRL. -/
def tx_c2_credit : Transaction := ⟨1, 1, ⟨5, "BRL"⟩, .credit, "credit five", 0, none⟩

/-- Same-day DEBIT of 3 BRL. -/
def tx_c2_debit : Transaction := ⟨2, 1, ⟨3, "BRL"⟩, .debit, "debit three", 0, none⟩

/-- Same-day CREDIT of 7 BRL. -/
def tx_c2_credit2 : Transaction := ⟨3, 1, ⟨7, "BRL"⟩, .credit, "credit seven", 0, none⟩

/-- A single DEBIT of 5 BRL on day 0: a ledger whose signed sum is negative. -/
def tx_c9_debit : Transaction := ⟨1, 1, ⟨5, "BRL"⟩, .debit, "withdrawal", 0, none⟩

/-- Store with one active account and only the negative-sum ledger. -/
def db_c9 : Database := ⟨[acct_active], [tx_c9_debit], []⟩

/-- Store with one active account and an empty ledger. -/
def db_c10 : Database := ⟨[acct_active], [], []⟩

/-- Snapshot for account 1 at day 0 with balance 0 (consistent: no
transactions at or before day 0). -/
def snap_c1 : BalanceSnapshot := ⟨1, 1, 0, 0, 0, "daily"⟩

/-- CREDIT of 10 BRL on day 1. -/
def tx_c1_credit : Transaction := ⟨1, 1, ⟨10, "BRL"⟩, .credit, "credit ten", 1, none⟩

/-- DEBIT of 5 BRL on day 2. -/
def tx_c1_debit : Transaction := ⟨2, 1, ⟨5, "BRL"⟩, .debit, "debit five", 2, none⟩

/-- Store whose snapshot window holds a credit before a debit (by date), so
the DESC replay folds the debit first. -/
def db_c1 : Database := ⟨[acct_active], [tx_c1_credit, tx_c1_debit], [snap_c1]⟩

/-- Store like `db_c1` but with only the credit in the window. -/
def db_c1w : Database := ⟨[acct_active], [tx_c1_credit], [snap_c1]⟩

/-! Helper lemmas about the embedded operations. -/

/-- Successful `Money.add` produces the sum of the amounts and keeps the left
operand's currency. -/
theorem Money.add_ok (a b m : Money) (h : a.add b = .ok m) :
    m.amount = a.amount + b.amount ∧ m.currency = a.currency := by
  unfold Money.add Money.validate_currency Money.mk? at h
  split at h
  · simp at h
  · split at h
    · simp at h
    · simp only [Except.ok.injEq] at h
      rw [← h]
      exact ⟨rfl, rfl⟩

/-- Successful `Money.subtract` produces the difference of the amounts and
keeps the left operand's currency. -/
theorem Money.subtract_ok (a b m : Money) (h : a.subtract b = .ok m) :
    m.amount = a.amount - b.amount ∧ m.currency = a.currency := by
  unfold Money.subtract Money.validate_currency Money.mk? at h
  split at h
  · simp at h
  · split at h
    · simp at h
    · simp only [Except.ok.injEq] at h
      rw [← h]
      exact ⟨rfl, rfl⟩

/-- One successful folding step adds the transaction's signed amount. -/
theorem fold_transaction_ok (b : Money) (t : Transaction) (m : Money)
    (h : BalanceCalculatorService.fold_transaction b t = .ok m) :
    m.amount = b.amount + t.signed_amount ∧ m.currency = b.currency := by
  unfold BalanceCalculatorService.fold_transaction Transaction.is_credit at h
  cases ht : t.transaction_type with
  | credit =>
      rw [ht] at h
      simp at h
      obtain ⟨h1, h2⟩ := Money.add_ok b t.amount m h
      have hs : t.signed_amount = t.amount.amount := by
        simp [Transaction.signed_amount, ht]
      rw [hs, h1]
      exact ⟨rfl, h2⟩
  | debit =>
      rw [ht] at h
      simp at h
      obtain ⟨h1, h2⟩ := Money.subtract_ok b t.amount m h
      have hs : t.signed_amount = -t.amount.amount := by
        simp [Transaction.signed_amount, ht]
      refine ⟨?_, h2⟩
      rw [hs, h1]
      ring

/-- A successful fold of a transaction list lands exactly on the starting
amount plus the sum of the signed amounts, in the starting currency: the
engine introduces no rounding and order only matters for success. -/
theorem fold_transactions_ok (l : List Transaction) (b m : Money)
    (h : BalanceCalculatorService.fold_transactions b l = .ok m) :
    m.amount = b.amount + (l.map Transaction.signed_amount).sum ∧ m.currency = b.currency := by
  induction l generalizing b with
  | nil =>
      unfold BalanceCalculatorService.fold_transactions at h
      simp only [Except.ok.injEq] at h
      simp [← h]
  | cons t rest ih =>
      unfold BalanceCalculatorService.fold_transactions at h
      cases hstep : BalanceCalculatorService.fold_transaction b t with
      | error e => rw [hstep] at h; simp at h
      | ok b2 =>
          rw [hstep] at h
          obtain ⟨h1, h2⟩ := fold_transaction_ok b t b2 hstep
          obtain ⟨h3, h4⟩ := ih b2 h
          constructor
          · rw [h3, h1]
            simp
            ring
          · rw [h4, h2]

/-- A snapshot returned by `get_latest_before_date` belongs to the queried
account and is dated at or before the target date. -/
theorem get_latest_before_date_some (db : Database) (account_id target_date : ℤ)
    (s : BalanceSnapshot)
    (h : BalanceSnapshotRepository.get_latest_before_date db account_id target_date = some s) :
    s.account_id = account_id ∧ s.snapshot_date ≤ target_date := by
  unfold BalanceSnapshotRepository.get_latest_before_date at h
  have hmem : s ∈ (db.snapshots.filter
      (fun s => decide (s.account_id = account_id) && decide (s.snapshot_date ≤ target_date))).insertionSort
      (fun a b => b.snapshot_date ≤ a.snapshot_date) :=
    List.mem_of_mem_head? (by simp [h])
  have hmem2 := (List.perm_insertionSort
      (fun (a b : BalanceSnapshot) => b.snapshot_date ≤ a.snapshot_date) _).mem_iff.mp hmem
  rw [List.mem_filter] at hmem2
  simpa using hmem2.2

/-- Splitting the signed-amount sum at an intermediate date: the sum up to `T`
is the sum up to `S` plus the sum over the window `(S, T]` (written with the
`start_date = S + 1` bound that `_calculate_from_snapshot` passes). -/
theorem balance_sum_split (l : List Transaction) (account_id S T : ℤ) (hST : S ≤ T) :
    ((l.filter (fun t => decide (t.account_id = account_id) && decide (t.transaction_date ≤ T))).map
        Transaction.signed_amount).sum =
      ((l.filter (fun t => decide (t.account_id = account_id) && decide (t.transaction_date ≤ S))).map
          Transaction.signed_amount).sum +
        ((l.filter (TransactionRepository.matches_filters account_id (some (S + 1)) (some T))).map
            Transaction.signed_amount).sum := by
  have hexp : ∀ (x : Transaction),
      TransactionRepository.matches_filters account_id (some (S + 1)) (some T) x =
        (decide (x.account_id = account_id) && decide (S + 1 ≤ x.transaction_date) &&
          decide (x.transaction_date ≤ T)) := by
    intro x
    rfl
  rw [List.filter_congr (fun x _ => hexp x)]
  induction l with
  | nil => simp
  | cons t rest ih =>
      simp only [List.filter_cons]
      by_cases h1 : t.account_id = account_id
      · by_cases h2 : t.transaction_date ≤ S
        · have h3 : t.transaction_date ≤ T := le_trans h2 hST
          have h4 : ¬ (S + 1 ≤ t.transaction_date) := by omega
          simp [h1, h2, h3, h4]
          rw [ih]
          ring
        · by_cases h3 : t.transaction_date ≤ T
          · have h4 : S + 1 ≤ t.transaction_date := by omega
            simp [h1, h2, h3, h4]
            rw [ih]
            ring
          · simpa [h1, h2, h3] using ih
      · simpa [h1] using ih

/-- With page 1 and at most 10000 matching rows, `list_by_account` returns a
permutation of the filtered rows: the `DESC` ordering only permutes, and the
offset/limit drop nothing. -/
theorem list_by_account_perm (db : Database) (account_id lo hi : ℤ)
    (hlen : (db.transactions.filter
        (TransactionRepository.matches_filters account_id (some lo) (some hi))).length ≤ 10000) :
    List.Perm
      (TransactionRepository.list_by_account db account_id 1 10000 (some lo) (some hi))
      (db.transactions.filter (TransactionRepository.matches_filters account_id (some lo) (some hi))) := by
  unfold TransactionRepository.list_by_account
  have hperm := List.perm_insertionSort
    (fun (a b : Transaction) => b.transaction_date ≤ a.transaction_date)
    (db.transactions.filter (TransactionRepository.matches_filters account_id (some lo) (some hi)))
  simp only [Nat.sub_self, Nat.zero_mul, List.drop_zero]
  rw [List.take_of_length_le]
  · exact hperm
  · rw [hperm.length_eq]
    exact hlen

/-- The `count_by_account` filter with only an upper date bound coincides with
the filter used by the SQL balance sum. -/
theorem matches_filters_none_some (account_id T : ℤ) (t : Transaction) :
    TransactionRepository.matches_filters account_id none (some T) t =
      (decide (t.account_id = account_id) && decide (t.transaction_date ≤ T)) := by
  unfold TransactionRepository.matches_filters
  simp

/-- When the account has no transactions dated at or before the target date,
the snapshot policy declines: its transaction count is 0, not above 100. -/
theorem should_create_snapshot_of_count_zero (db : Database) (account_id target_date today : ℤ)
    (hcount : TransactionRepository.count_by_account db account_id none (some target_date) = 0) :
    SnapshotService.should_create_snapshot db account_id target_date today = false := by
  unfold SnapshotService.should_create_snapshot
  split
  · rfl
  · split
    · rfl
    · simp [hcount]

/-- Constructor disequality used when evaluating the fold on concrete data. -/
theorem tt_debit_ne_credit : TransactionType.debit ≠ TransactionType.credit := by decide

/-! Claim theorems. -/

/-- C3, counterexample: `Money("10","BRL").subtract(Money("15","BRL"))` does
not return a Money with amount -5 — `Money.__post_init__` raises
`InvalidTransactionException` on the negative construction, so `subtract`
cannot produce a negative result. -/
theorem claim_C3_counterexample :
    Money.subtract ⟨10, "BRL"⟩ ⟨15, "BRL"⟩ =
      .error (.invalidTransaction "Money amount cannot be negative") := by
  norm_num [Money.subtract, Money.validate_currency, Money.mk?]

/-- C3 (amended): for same-currency operands, `subtract` returns a Money
whose amount is `a.amount - b.amount` when that difference is nonnegative,
and raises InvalidTransaction ("Money amount cannot be negative") when
`b.amount > a.amount` — the negative case never escapes as a value. -/
theorem claim_C3 (a b : Money) (hc : a.currency = b.currency) :
    Money.subtract a b =
      (if a.amount - b.amount < 0 then
        .error (.invalidTransaction "Money amount cannot be negative")
      else
        .ok ⟨a.amount - b.amount, a.currency⟩) := by
  unfold Money.subtract Money.validate_currency Money.mk?
  simp [hc]

/-- C3, witness: a concrete nonnegative subtraction. -/
theorem claim_C3_witness :
    Money.subtract ⟨10, "BRL"⟩ ⟨4, "BRL"⟩ = .ok ⟨6, "BRL"⟩ := by
  have h := claim_C3 ⟨10, "BRL"⟩ ⟨4, "BRL"⟩ rfl
  norm_num at h
  exact h

/-- C7: on a currency mismatch both `add` and `subtract` raise the
currency-mismatch error (realized in the code as
`InvalidTransactionException("Currency mismatch: A vs B")`). -/
theorem claim_C7 (a b : Money) (h : a.currency ≠ b.currency) :
    a.add b =
        .error (.invalidTransaction ("Currency mismatch: " ++ a.currency ++ " vs " ++ b.currency)) ∧
      a.subtract b =
        .error (.invalidTransaction ("Currency mismatch: " ++ a.currency ++ " vs " ++ b.currency)) := by
  unfold Money.add Money.subtract Money.validate_currency
  simp [h]

/-- C7, witness: the spec's example `Money("10","BRL").add(Money("5","USD"))`,
plus the same pair under `subtract`. -/
theorem claim_C7_witness :
    Money.add ⟨10, "BRL"⟩ ⟨5, "USD"⟩ =
        .error (.invalidTransaction "Currency mismatch: BRL vs USD") ∧
      Money.subtract ⟨10, "BRL"⟩ ⟨5, "USD"⟩ =
        .error (.invalidTransaction "Currency mismatch: BRL vs USD") := by
  have h := claim_C7 ⟨10, "BRL"⟩ ⟨5, "USD"⟩ (by simp)
  simpa using h

/-- C6: for a non-future target date with no snapshot at that exact date,
`should_create_snapshot` returns true exactly when the transaction count up
to the date exceeds 100 (so it is false at exactly 100 and true at 101). -/
theorem claim_C6 (db : Database) (account_id target_date today : ℤ)
    (hpast : target_date ≤ today)
    (hnosnap : BalanceSnapshotRepository.exists_for_date db account_id target_date = false) :
    (SnapshotService.should_create_snapshot db account_id target_date today = true ↔
      100 < TransactionRepository.count_by_account db account_id none (some target_date)) := by
  unfold SnapshotService.should_create_snapshot
  rw [if_neg (by omega), hnosnap]
  simp

/-- C6, witness: concrete empty store, non-future date, no snapshot. -/
theorem claim_C6_witness :
    (SnapshotService.should_create_snapshot ⟨[], [], []⟩ 1 0 0 = true ↔
      100 < TransactionRepository.count_by_account ⟨[], [], []⟩ 1 none (some 0)) :=
  claim_C6 ⟨[], [], []⟩ 1 0 0 (by norm_num)
    (by norm_num [BalanceSnapshotRepository.exists_for_date])

/-- C8: a `cache_balance` write on a healthy backend stores the balance with
TTL 86400 when the date is historical (`target_date < today`) and TTL 3600
otherwise; on a failing backend the write error is swallowed and the cache
state is returned unchanged. -/
theorem claim_C8 (c : CacheState) (account_id target_date today : ℤ) (balance : Money) :
    (c.failing = false →
      CacheService.cache_balance c account_id target_date balance today =
        { c with entries :=
            ⟨account_id, target_date, balance,
              if target_date < today then 86400 else 3600⟩ :: c.entries }) ∧
    (c.failing = true →
      CacheService.cache_balance c account_id target_date balance today = c) := by
  unfold CacheService.cache_balance ICacheService.set_balance
  constructor <;> intro h <;> simp [h]

/-- C8, witness: one historical-date write on a healthy cache (TTL 86400) and
one write against a failing backend (state unchanged). -/
theorem claim_C8_witness :
    CacheService.cache_balance ⟨[], false⟩ 1 0 ⟨5, "BRL"⟩ 2 =
        ⟨[⟨1, 0, ⟨5, "BRL"⟩, 86400⟩], false⟩ ∧
      CacheService.cache_balance ⟨[], true⟩ 1 0 ⟨5, "BRL"⟩ 2 = ⟨[], true⟩ := by
  constructor
  · have h := (claim_C8 ⟨[], false⟩ 1 0 2 ⟨5, "BRL"⟩).1 rfl
    norm_num at h
    exact h
  · exact (claim_C8 ⟨[], true⟩ 1 0 2 ⟨5, "BRL"⟩).2 rfl

/-- C4: when the account id does not exist, `GetBalanceUseCase.execute` fails
with `AccountNotFound` ("Account not found"), leaves cache and database
untouched, and invokes no collaborator beyond the account lookup itself — no
cache read or write, no snapshot query, no ledger-store call. -/
theorem claim_C4 (cache : CacheState) (db : Database) (account_id : ℤ)
    (target_date_opt : Option ℤ) (today : ℤ)
    (habsent : AccountRepository.get_by_id db account_id = none) :
    GetBalanceUseCase.execute cache db account_id target_date_opt today =
      ⟨.error (.accountNotFound "Account not found"), cache, db, [.account_get account_id]⟩ := by
  unfold GetBalanceUseCase.execute
  rw [habsent]

/-- C4, witness: empty store. -/
theorem claim_C4_witness :
    GetBalanceUseCase.execute ⟨[], false⟩ ⟨[], [], []⟩ 1 (some 0) 0 =
      ⟨.error (.accountNotFound "Account not found"), ⟨[], false⟩, ⟨[], [], []⟩,
        [.account_get 1]⟩ :=
  claim_C4 ⟨[], false⟩ ⟨[], [], []⟩ 1 (some 0) 0
    (by norm_num [AccountRepository.get_by_id])

/-- C5: recording a transaction against an existing INACTIVE or BLOCKED
account fails with the active-check error carrying the account number, the
ledger keeps its rows (database unchanged), and no cache invalidation happens
(cache unchanged, and the only collaborator call is the account lookup). -/
theorem claim_C5 (cache : CacheState) (db : Database) (data : TransactionData) (today : ℤ)
    (account : Account)
    (hacct : AccountRepository.get_by_id db data.account_id = some account)
    (hstatus : account.status = AccountStatus.inactive ∨ account.status = AccountStatus.blocked) :
    CreateTransactionUseCase.execute cache db data today =
      ⟨.error (.accountNotFound ("Account " ++ account.account_number ++ " is not active")),
        cache, db, [.account_get data.account_id]⟩ := by
  have hne : account.is_active = false := by
    unfold Account.is_active
    rcases hstatus with h | h <;> simp [h]
  unfold CreateTransactionUseCase.execute Account.validate_for_transaction
  simp only [hacct]
  rw [hne]
  rfl

/-- C5, witness: one INACTIVE account, one attempted credit. -/
theorem claim_C5_witness :
    CreateTransactionUseCase.execute ⟨[], false⟩ ⟨[⟨1, "ACC-002", "Bob", .inactive⟩], [], []⟩
        ⟨1, ⟨5, "BRL"⟩, "credit", "deposit", none, none⟩ 7 =
      ⟨.error (.accountNotFound ("Account " ++ "ACC-002" ++ " is not active")),
        ⟨[], false⟩, ⟨[⟨1, "ACC-002", "Bob", .inactive⟩], [], []⟩, [.account_get 1]⟩ :=
  claim_C5 ⟨[], false⟩ ⟨[⟨1, "ACC-002", "Bob", .inactive⟩], [], []⟩
    ⟨1, ⟨5, "BRL"⟩, "credit", "deposit", none, none⟩ 7 ⟨1, "ACC-002", "Bob", .inactive⟩
    (by norm_num [AccountRepository.get_by_id]) (Or.inl rfl)

/-- C2, counterexample: the two-element lists `[credit 5, debit 3]` and
`[debit 3, credit 5]` are permutations of one another, yet the code's fold
returns 2 BRL on the first and raises InvalidTransaction on the second (the
debit-first order drives the running Money below zero), so folding is not
order-independent as claimed. -/
theorem claim_C2_counterexample :
    List.Perm [tx_c2_credit, tx_c2_debit] [tx_c2_debit, tx_c2_credit] ∧
      BalanceCalculatorService.calculate_balance_at_date [tx_c2_credit, tx_c2_debit] 0 =
        .ok ⟨2, "BRL"⟩ ∧
      BalanceCalculatorService.calculate_balance_at_date [tx_c2_debit, tx_c2_credit] 0 =
        .error (.invalidTransaction "Money amount cannot be negative") := by
  refine ⟨List.Perm.swap _ _ _, ?_, ?_⟩ <;>
    norm_num [BalanceCalculatorService.calculate_balance_at_date,
      BalanceCalculatorService.fold_transactions, BalanceCalculatorService.fold_transaction,
      Money.add, Money.subtract, Money.validate_currency, Money.mk?, Money.zero,
      Transaction.is_credit, tx_c2_credit, tx_c2_debit, tt_debit_ne_credit]

/-- C2 (amended): whenever the fold succeeds on a list and on a permutation
of it, both runs return the same Money — the successfully computed balance is
order-independent (it equals the start plus the signed sum); order can only
decide between success and an InvalidTransaction raise, as the
counterexample shows. -/
theorem claim_C2 (l1 l2 : List Transaction) (target_date : ℤ) (m1 m2 : Money)
    (hperm : List.Perm l1 l2)
    (h1 : BalanceCalculatorService.calculate_balance_at_date l1 target_date = .ok m1)
    (h2 : BalanceCalculatorService.calculate_balance_at_date l2 target_date = .ok m2) :
    m1 = m2 := by
  unfold BalanceCalculatorService.calculate_balance_at_date at h1 h2
  obtain ⟨a1, c1⟩ := fold_transactions_ok _ _ _ h1
  obtain ⟨a2, c2⟩ := fold_transactions_ok _ _ _ h2
  have hp : List.Perm
      (l1.filter (fun t => decide (t.transaction_date ≤ target_date)))
      (l2.filter (fun t => decide (t.transaction_date ≤ target_date))) :=
    hperm.filter _
  have hsum := (hp.map Transaction.signed_amount).sum_eq
  cases m1 with
  | mk am1 cu1 =>
    cases m2 with
    | mk am2 cu2 =>
      simp only at a1 a2 c1 c2
      rw [Money.mk.injEq]
      constructor
      · rw [a1, a2, hsum]
      · rw [c1, c2]

/-- C2, witness: two same-day credits folded in both orders give 12 BRL. -/
theorem claim_C2_witness :
    List.Perm [tx_c2_credit, tx_c2_credit2] [tx_c2_credit2, tx_c2_credit] ∧
      BalanceCalculatorService.calculate_balance_at_date [tx_c2_credit, tx_c2_credit2] 0 =
        .ok ⟨12, "BRL"⟩ ∧
      BalanceCalculatorService.calculate_balance_at_date [tx_c2_credit2, tx_c2_credit] 0 =
        .ok ⟨12, "BRL"⟩ ∧
      (⟨12, "BRL"⟩ : Money) = ⟨12, "BRL"⟩ := by
  have h1 : BalanceCalculatorService.calculate_balance_at_date [tx_c2_credit, tx_c2_credit2] 0 =
      .ok ⟨12, "BRL"⟩ := by
    norm_num [BalanceCalculatorService.calculate_balance_at_date,
      BalanceCalculatorService.fold_transactions, BalanceCalculatorService.fold_transaction,
      Money.add, Money.validate_currency, Money.mk?, Money.zero,
      Transaction.is_credit, tx_c2_credit, tx_c2_credit2]
  have h2 : BalanceCalculatorService.calculate_balance_at_date [tx_c2_credit2, tx_c2_credit] 0 =
      .ok ⟨12, "BRL"⟩ := by
    norm_num [BalanceCalculatorService.calculate_balance_at_date,
      BalanceCalculatorService.fold_transactions, BalanceCalculatorService.fold_transaction,
      Money.add, Money.validate_currency, Money.mk?, Money.zero,
      Transaction.is_credit, tx_c2_credit, tx_c2_credit2]
  exact ⟨List.Perm.swap _ _ _, h1, h2,
    claim_C2 [tx_c2_credit, tx_c2_credit2] [tx_c2_credit2, tx_c2_credit] 0 ⟨12, "BRL"⟩
      ⟨12, "BRL"⟩ (List.Perm.swap _ _ _) h1 h2⟩

/-- C9: for an existing account with no cached balance and no snapshot, when
the signed sum of its transactions up to the target date is strictly
negative, `GetBalanceUseCase.execute` raises InvalidTransaction ("Money
amount cannot be negative") instead of returning a balance: the `Money`
constructor applied to the negative sum rejects it. -/
theorem claim_C9 (cache : CacheState) (db : Database) (account_id target_date today : ℤ)
    (account : Account)
    (hacct : AccountRepository.get_by_id db account_id = some account)
    (hcache : CacheService.get_cached_balance cache account_id target_date = none)
    (hsnap : BalanceSnapshotRepository.get_latest_before_date db account_id target_date = none)
    (hneg : TransactionRepository.get_balance_by_date db account_id target_date < 0) :
    (GetBalanceUseCase.execute cache db account_id (some target_date) today).outcome =
      .error (.invalidTransaction "Money amount cannot be negative") := by
  unfold GetBalanceUseCase.execute
  simp only [Option.getD_some, hacct, hcache, hsnap]
  unfold Money.mk?
  rw [if_pos hneg]

/-- C9, witness: a single 5 BRL debit on day 0 makes the day-0 sum -5. -/
theorem claim_C9_witness :
    (GetBalanceUseCase.execute cache_empty db_c9 1 (some 0) 0).outcome =
      .error (.invalidTransaction "Money amount cannot be negative") :=
  claim_C9 cache_empty db_c9 1 0 0 acct_active
    (by norm_num [AccountRepository.get_by_id, db_c9, acct_active])
    (by norm_num [CacheService.get_cached_balance, ICacheService.get_balance, cache_empty])
    (by norm_num [BalanceSnapshotRepository.get_latest_before_date, db_c9,
      List.insertionSort])
    (by norm_num [TransactionRepository.get_balance_by_date, Transaction.signed_amount,
      db_c9, tx_c9_debit])

/-- C10: for an existing account with no cached balance, no snapshot, and no
transactions dated at or before the target date, `GetBalanceUseCase.execute`
returns a balance of exactly 0 with currency "BRL" and source
"calculated" (the SQL sum primitive falls back to `Decimal("0.00")`). -/
theorem claim_C10 (cache : CacheState) (db : Database) (account_id target_date today : ℤ)
    (account : Account)
    (hacct : AccountRepository.get_by_id db account_id = some account)
    (hcache : CacheService.get_cached_balance cache account_id target_date = none)
    (hsnap : BalanceSnapshotRepository.get_latest_before_date db account_id target_date = none)
    (hempty : db.transactions.filter
        (fun t => decide (t.account_id = account_id) && decide (t.transaction_date ≤ target_date)) = []) :
    (GetBalanceUseCase.execute cache db account_id (some target_date) today).outcome =
      .ok (GetBalanceUseCase.build_response account ⟨0, "BRL"⟩ target_date "calculated") := by
  have hsum : TransactionRepository.get_balance_by_date db account_id target_date = 0 := by
    unfold TransactionRepository.get_balance_by_date
    rw [hempty]
    simp
  have hcount : TransactionRepository.count_by_account db account_id none (some target_date) = 0 := by
    unfold TransactionRepository.count_by_account
    rw [List.filter_congr (fun x _ => matches_filters_none_some account_id target_date x), hempty]
    rfl
  have hattempt : (GetBalanceUseCase.snapshot_attempt db account_id target_date today).source =
      "calculated" := by
    unfold GetBalanceUseCase.snapshot_attempt
    rw [should_create_snapshot_of_count_zero db account_id target_date today hcount]
    simp
  unfold GetBalanceUseCase.execute
  simp only [Option.getD_some, hacct, hcache, hsnap, hsum]
  unfold Money.mk?
  rw [if_neg (by norm_num : ¬ (0 : ℚ) < 0)]
  simp only [hattempt]

/-- C10, witness: empty ledger for account 1. -/
theorem claim_C10_witness :
    (GetBalanceUseCase.execute cache_empty db_c10 1 (some 5) 5).outcome =
      .ok (GetBalanceUseCase.build_response acct_active ⟨0, "BRL"⟩ 5 "calculated") :=
  claim_C10 cache_empty db_c10 1 5 5 acct_active
    (by norm_num [AccountRepository.get_by_id, db_c10, acct_active])
    (by norm_num [CacheService.get_cached_balance, ICacheService.get_balance, cache_empty])
    (by norm_num [BalanceSnapshotRepository.get_latest_before_date, db_c10,
      List.insertionSort])
    (by norm_num [db_c10])

/-- C1, counterexample: in `db_c1` the (only) snapshot at day 0 is consistent
with the ledger, the cache is empty, and the full-replay sum at day 3 is 5;
yet `resolve_balance` raises InvalidTransaction instead of returning 5,
because the delta replay is folded in DESC date order and the day-2 debit is
applied to the day-0 balance before the day-1 credit, driving the running
Money negative.  So snapshot+delta is not extensionally equal to full
summation. -/
theorem claim_C1_counterexample :
    BalanceSnapshotRepository.get_latest_before_date db_c1 1 3 = some snap_c1 ∧
      snap_c1.balance_amount = TransactionRepository.get_balance_by_date db_c1 1 snap_c1.snapshot_date ∧
      CacheService.get_cached_balance cache_empty 1 3 = none ∧
      TransactionRepository.get_balance_by_date db_c1 1 3 = 5 ∧
      (GetBalanceUseCase.execute cache_empty db_c1 1 (some 3) 3).outcome =
        .error (.invalidTransaction "Money amount cannot be negative") := by
  refine ⟨?_, ?_, ?_, ?_, ?_⟩ <;>
    norm_num [GetBalanceUseCase.execute, GetBalanceUseCase.calculate_from_snapshot,
      AccountRepository.get_by_id, CacheService.get_cached_balance, ICacheService.get_balance,
      BalanceSnapshotRepository.get_latest_before_date, TransactionRepository.list_by_account,
      TransactionRepository.matches_filters, TransactionRepository.get_balance_by_date,
      BalanceCalculatorService.fold_transactions, BalanceCalculatorService.fold_transaction,
      Transaction.is_credit, Transaction.signed_amount, Money.add, Money.subtract,
      Money.validate_currency, Money.mk?, List.insertionSort, List.orderedInsert,
      db_c1, snap_c1, tx_c1_credit, tx_c1_debit, acct_active, cache_empty, tt_debit_ne_credit]

/-- C1 (amended): under the claim's hypotheses (existing account, cache miss,
latest snapshot at or before T consistent with the ledger) and with at most
10000 transactions in the replay window, whenever `resolve_balance` returns a
balance at all, that balance is bit-exact equal to the full-replay signed sum
of all transactions up to T; the call may instead raise InvalidTransaction
when the DESC-ordered delta fold passes through a negative intermediate
value, as the counterexample shows. -/
theorem claim_C1 (cache : CacheState) (db : Database) (account_id target_date today : ℤ)
    (account : Account) (snapshot : BalanceSnapshot) (resp : BalanceResponse)
    (hacct : AccountRepository.get_by_id db account_id = some account)
    (hcache : CacheService.get_cached_balance cache account_id target_date = none)
    (hsnap : BalanceSnapshotRepository.get_latest_before_date db account_id target_date = some snapshot)
    (hconsistent : snapshot.balance_amount =
      TransactionRepository.get_balance_by_date db account_id snapshot.snapshot_date)
    (hbound : TransactionRepository.count_by_account db account_id
        (some (snapshot.snapshot_date + 1)) (some target_date) ≤ 10000)
    (hok : (GetBalanceUseCase.execute cache db account_id (some target_date) today).outcome = .ok resp) :
    resp.balance.amount = TransactionRepository.get_balance_by_date db account_id target_date := by
  obtain ⟨hsacc, hsle⟩ := get_latest_before_date_some db account_id target_date snapshot hsnap
  unfold TransactionRepository.count_by_account at hbound
  unfold GetBalanceUseCase.execute at hok
  simp only [Option.getD_some, hacct, hcache, hsnap] at hok
  cases hcalc : GetBalanceUseCase.calculate_from_snapshot db snapshot account_id target_date with
  | error e =>
      rw [hcalc] at hok
      simp at hok
  | ok m =>
      rw [hcalc] at hok
      simp at hok
      have hm : m.amount = TransactionRepository.get_balance_by_date db account_id target_date := by
        unfold GetBalanceUseCase.calculate_from_snapshot at hcalc
        cases hmk : Money.mk? snapshot.balance_amount "BRL" with
        | error e => rw [hmk] at hcalc; simp at hcalc
        | ok b0 =>
            rw [hmk] at hcalc
            dsimp only at hcalc
            have hb0 : b0.amount = snapshot.balance_amount := by
              unfold Money.mk? at hmk
              split at hmk
              · simp at hmk
              · simp only [Except.ok.injEq] at hmk
                rw [← hmk]
            by_cases hlt : snapshot.snapshot_date < target_date
            · rw [if_pos hlt] at hcalc
              obtain ⟨hma, _⟩ := fold_transactions_ok _ _ _ hcalc
              have hperm := list_by_account_perm db account_id (snapshot.snapshot_date + 1)
                target_date hbound
              have hsum := (hperm.map Transaction.signed_amount).sum_eq
              have hsplit : TransactionRepository.get_balance_by_date db account_id target_date =
                  TransactionRepository.get_balance_by_date db account_id snapshot.snapshot_date +
                    ((db.transactions.filter
                        (TransactionRepository.matches_filters account_id
                          (some (snapshot.snapshot_date + 1)) (some target_date))).map
                      Transaction.signed_amount).sum := by
                unfold TransactionRepository.get_balance_by_date
                exact balance_sum_split db.transactions account_id snapshot.snapshot_date
                  target_date hsle
              rw [hma, hb0, hsum, hconsistent, hsplit]
            · rw [if_neg hlt] at hcalc
              simp only [Except.ok.injEq] at hcalc
              have hTS : target_date = snapshot.snapshot_date := by omega
              rw [← hcalc, hb0, hconsistent, hTS]
      rw [← hok]
      exact hm

/-- C1, witness: a consistent snapshot at day 0 and a single day-1 credit;
the resolver's snapshot+delta result (10 BRL) equals the full-replay sum at
day 2. -/
theorem claim_C1_witness :
    (GetBalanceUseCase.build_response acct_active ⟨10, "BRL"⟩ 2 "snapshot").balance.amount =
      TransactionRepository.get_balance_by_date db_c1w 1 2 :=
  claim_C1 cache_empty db_c1w 1 2 2 acct_active snap_c1
    (GetBalanceUseCase.build_response acct_active ⟨10, "BRL"⟩ 2 "snapshot")
    (by norm_num [AccountRepository.get_by_id, db_c1w, acct_active])
    (by norm_num [CacheService.get_cached_balance, ICacheService.get_balance, cache_empty])
    (by norm_num [BalanceSnapshotRepository.get_latest_before_date, db_c1w, snap_c1,
      List.insertionSort, List.orderedInsert])
    (by norm_num [TransactionRepository.get_balance_by_date, db_c1w, snap_c1, tx_c1_credit])
    (by norm_num [TransactionRepository.count_by_account, TransactionRepository.matches_filters,
      db_c1w, snap_c1, tx_c1_credit])
    (by norm_num [GetBalanceUseCase.execute, GetBalanceUseCase.calculate_from_snapshot,
      GetBalanceUseCase.build_response, AccountRepository.get_by_id,
      CacheService.get_cached_balance, ICacheService.get_balance,
      BalanceSnapshotRepository.get_latest_before_date, TransactionRepository.list_by_account,
      TransactionRepository.matches_filters, BalanceCalculatorService.fold_transactions,
      BalanceCalculatorService.fold_transaction, Transaction.is_credit, Money.add,
      Money.validate_currency, Money.mk?, List.insertionSort, List.orderedInsert,
      db_c1w, snap_c1, tx_c1_credit, acct_active, cache_empty])
